import Mathlib

/-!
Verification of the content-acquisition pipeline and peripheral storage of the
proxy server repository.

The embedding models the `/api/proxy/content` Express handler (its ordered fetch
strategies, fallback-page synthesis and regex-based HTML processing), the
`/api/proxy/request` active-connections counter, and `MemStorage.getProxyRequests`.

Modelling conventions:
* HTML documents and URL strings are `List Char` (JS strings; `.length` and the
  ASCII fragments involved coincide with UTF-16 code-unit semantics for the
  inputs considered).
* Each JavaScript regex `replace` is embedded as a left-to-right scanner that
  consumes the match exactly as the corresponding regular expression does
  (lazy/greedy behaviour of each concrete pattern is resolved by hand and noted
  at each matcher).
* Network I/O (`fetch`, timeouts, header profiles) is abstracted into a
  `FetchEnv` of call outcomes; a rejected promise / thrown error is `NetResult.throws`.
* The WHATWG `new URL` constructor is modelled by `parseUrl`, restricted to
  hierarchical `scheme://host` URLs (user-info, IPv6 literals and
  percent-encoding are outside the modelled domain).
-/

/-- Convert a string literal to the `List Char` representation used throughout. -/
def str (s : String) : List Char := s.data

/-- Lowercase every character (model of regex case-insensitive comparison). -/
def lowerL (s : List Char) : List Char := s.map Char.toLower

/-- Characters matched by JavaScript `\s` (ASCII part), also the set removed by
`String.prototype.trim`. -/
def isJsWs (c : Char) : Bool :=
  c == ' ' || c == '\t' || c == '\n' || c == '\r' || c.toNat == 11 || c.toNat == 12

/-- Model of `String.prototype.trim`. -/
def jsTrim (s : List Char) : List Char :=
  ((s.dropWhile isJsWs).reverse.dropWhile isJsWs).reverse

/-- A quote character, i.e. the regex class `["']`. -/
def isQuote (c : Char) : Bool := c == '"' || c.toNat == 39

/-- Case-sensitive: does `s` start with `pat`? -/
def hasPrefixCh : List Char → List Char → Bool
  | [], _ => true
  | _ :: _, [] => false
  | p :: ps, c :: cs => p == c && hasPrefixCh ps cs

/-- Case-sensitive prefix removal: `some rest` iff `s = pat ++ rest`. -/
def dropPrefixCh : List Char → List Char → Option (List Char)
  | [], s => some s
  | _ :: _, [] => none
  | p :: ps, c :: cs => if p == c then dropPrefixCh ps cs else none

/-- Case-insensitive prefix removal (`pat` is given lowercased). -/
def lowPrefixDrop : List Char → List Char → Option (List Char)
  | [], s => some s
  | _ :: _, [] => none
  | p :: ps, c :: cs => if Char.toLower c == p then lowPrefixDrop ps cs else none

/-- Model of `String.prototype.includes` (case-sensitive substring test). -/
def containsSub (pat : List Char) : List Char → Bool
  | [] => pat.isEmpty
  | c :: cs => hasPrefixCh pat (c :: cs) || containsSub pat cs

/-- Number of (possibly overlapping) occurrences of `pat`; used to count
`<base ` markers, which cannot overlap themselves. -/
def countSub (pat : List Char) : List Char → Nat
  | [] => if pat.isEmpty then 1 else 0
  | c :: cs => (if hasPrefixCh pat (c :: cs) then 1 else 0) + countSub pat cs

/-- Generic engine for a global (`/g`) `String.replace`: scan left to right, on
a match emit its replacement and resume after the consumed text, otherwise copy
one character.  Every matcher consumes at least one character, so fuel equal to
the string length suffices; the fuel only certifies termination. -/
def scanReplaceF (m : List Char → Option (List Char × List Char)) :
    Nat → List Char → List Char
  | 0, s => s
  | _ + 1, [] => []
  | fuel + 1, c :: cs =>
    match m (c :: cs) with
    | some (rep, rest) => rep ++ scanReplaceF m fuel rest
    | none => c :: scanReplaceF m fuel cs

/-- Global `String.replace` with matcher `m`. -/
def scanReplace (m : List Char → Option (List Char × List Char)) (s : List Char) :
    List Char :=
  scanReplaceF m s.length s

/-- Engine for a non-global `String.replace`: only the first match is replaced,
the remainder is copied verbatim. -/
def scanReplaceFirstF (m : List Char → Option (List Char × List Char)) :
    Nat → List Char → List Char
  | 0, s => s
  | _ + 1, [] => []
  | fuel + 1, c :: cs =>
    match m (c :: cs) with
    | some (rep, rest) => rep ++ rest
    | none => c :: scanReplaceFirstF m fuel cs

/-- Non-global `String.replace` with matcher `m`. -/
def scanReplaceFirst (m : List Char → Option (List Char × List Char))
    (s : List Char) : List Char :=
  scanReplaceFirstF m s.length s

/-- Take characters up to the first quote of either kind: the lazy group
`([^"']*?)` followed by `["']`.  Returns the group and the text after the
closing quote. -/
def takeToQuote : List Char → Option (List Char × List Char)
  | [] => none
  | c :: cs =>
    if isQuote c then some ([], cs)
    else
      match takeToQuote cs with
      | some (mid, rest) => some (c :: mid, rest)
      | none => none

/-- Matcher for `/ATTR=["']\/([^"']*?)["']/g` replaced by `ATTR="BASE/$1"`:
the root-relative attribute rewrite of the content endpoint (`href`, `src`,
`action`). -/
def attrMatcher (attr base : List Char) (s : List Char) :
    Option (List Char × List Char) :=
  match dropPrefixCh (attr ++ str "=") s with
  | none => none
  | some s1 =>
    match s1 with
    | q :: '/' :: s2 =>
      if isQuote q then
        match takeToQuote s2 with
        | some (mid, rest) =>
          some (attr ++ str "=\"" ++ base ++ str "/" ++ mid ++ str "\"", rest)
        | none => none
      else none
    | _ => none

/-- Take characters of the class `[^)"']` up to the terminator of
`([^)"']*?)["']?\)`: stop at `)` or at a quote immediately followed by `)`
(any other stop fails the whole match, as the lazy group cannot extend past a
quote or parenthesis). -/
def takeCssMid : List Char → Option (List Char × List Char)
  | [] => none
  | c :: cs =>
    if c == ')' then some ([], cs)
    else if isQuote c then
      match cs with
      | ')' :: rest => some ([], rest)
      | _ => none
    else
      match takeCssMid cs with
      | some (mid, rest) => some (c :: mid, rest)
      | none => none

/-- Matcher for `/url\(["']?\/([^)"']*?)["']?\)/g` replaced by
`url("BASE/$1")`: the root-relative CSS `url(...)` rewrite. -/
def cssUrlMatcher (base : List Char) (s : List Char) :
    Option (List Char × List Char) :=
  match dropPrefixCh (str "url(") s with
  | none => none
  | some s1 =>
    let s1' := match s1 with
      | c :: rest => if isQuote c then rest else s1
      | [] => s1
    match s1' with
    | '/' :: s2 =>
      match takeCssMid s2 with
      | some (mid, rest) =>
        some (str "url(\"" ++ base ++ str "/" ++ mid ++ str "\")", rest)
      | none => none
    | _ => none

/-- Scan for the first case-insensitive occurrence of `pat` (given lowercased)
and return the text after it; models the lazy `.*?PAT` tail of a dot-all
regex. -/
def findCloseCi (pat : List Char) : List Char → Option (List Char)
  | [] => none
  | c :: cs =>
    match lowPrefixDrop pat (c :: cs) with
    | some rest => some rest
    | none => findCloseCi pat cs

/-- Matcher for `/<OPEN[^>]*INNER[^>]*>.*?CLOSE/gis` replaced by the empty
string: used for the Wayback-artifact strips
`/<script[^>]*archive\.org[^>]*>.*?<\/script>/gis` and
`/<div[^>]*wm-ipp[^>]*>.*?<\/div>/gis`.  `openPat`, `innerPat`, `closePat`
are given lowercased. -/
def tagBlockMatcher (openPat innerPat closePat : List Char) (s : List Char) :
    Option (List Char × List Char) :=
  match lowPrefixDrop openPat s with
  | none => none
  | some s1 =>
    let run := s1.takeWhile (fun c => !(c == '>'))
    match s1.dropWhile (fun c => !(c == '>')) with
    | '>' :: s2 =>
      if containsSub innerPat (lowerL run) then
        match findCloseCi closePat s2 with
        | some rest => some ([], rest)
        | none => none
      else none
    | _ => none

/-- Drop the regex `\s*`. -/
def skipWs (s : List Char) : List Char := s.dropWhile isJsWs

/-- The terminator `\/\*\s*End\s*Wayback\s*Rewrite\s*\*` of the playback-timers
strip, tried at one position (`pats` lowercased). -/
def playEndAt (s : List Char) : Option (List Char) :=
  match dropPrefixCh (str "/*") s with
  | none => none
  | some t =>
    match lowPrefixDrop (str "end") (skipWs t) with
    | none => none
    | some t =>
      match lowPrefixDrop (str "wayback") (skipWs t) with
      | none => none
      | some t =>
        match lowPrefixDrop (str "rewrite") (skipWs t) with
        | none => none
        | some t =>
          match skipWs t with
          | '*' :: rest => some rest
          | _ => none

/-- Scan for the earliest position where the playback terminator matches
(the lazy `.*?` of the pattern). -/
def findPlayEnd : List Char → Option (List Char)
  | [] => none
  | c :: cs =>
    match playEndAt (c :: cs) with
    | some rest => some rest
    | none => findPlayEnd cs

/-- Matcher for
`/\/\*\s*playback\s*timers\s*\*\/.*?\/\*\s*End\s*Wayback\s*Rewrite\s*\*/gis`
replaced by the empty string. -/
def playbackMatcher (s : List Char) : Option (List Char × List Char) :=
  match dropPrefixCh (str "/*") s with
  | none => none
  | some t =>
    match lowPrefixDrop (str "playback") (skipWs t) with
    | none => none
    | some t =>
      match lowPrefixDrop (str "timers") (skipWs t) with
      | none => none
      | some t =>
        match dropPrefixCh (str "*/") (skipWs t) with
        | none => none
        | some t =>
          match findPlayEnd t with
          | some rest => some ([], rest)
          | none => none

/-- Does the (lowercased) inside of a `<meta ...>` tag contain
`KEY["']?VALUE`?  Models the `[^>]*KEY=["']?VALUE[^>]*` core of the meta-strip
regexes (`key` includes the trailing `=`; `key`, `value` lowercased). -/
def metaInner (key value : List Char) : List Char → Bool
  | [] => false
  | c :: cs =>
    (match dropPrefixCh key (c :: cs) with
     | some r =>
       hasPrefixCh value r ||
         (match r with
          | q :: r2 => isQuote q && hasPrefixCh value r2
          | [] => false)
     | none => false) ||
      metaInner key value cs

/-- Matcher for `/<meta[^>]*KEY=["']?VALUE[^>]*>/gi` replaced by the empty
string: used for the `X-Frame-Options` and `viewport` meta strips. -/
def metaMatcher (key value : List Char) (s : List Char) :
    Option (List Char × List Char) :=
  match lowPrefixDrop (str "<meta") s with
  | none => none
  | some s1 =>
    let run := s1.takeWhile (fun c => !(c == '>'))
    match s1.dropWhile (fun c => !(c == '>')) with
    | '>' :: s2 => if metaInner key value (lowerL run) then some ([], s2) else none
    | _ => none

/-- Matcher for the non-global `/<head[^>]*>/i` replaced by `$&TXT`: insert
`txt` immediately after the first opening head tag, preserving the matched
text. -/
def headTagMatcher (txt : List Char) (s : List Char) :
    Option (List Char × List Char) :=
  match lowPrefixDrop (str "<head") s with
  | none => none
  | some s1 =>
    let run := s1.takeWhile (fun c => !(c == '>'))
    match s1.dropWhile (fun c => !(c == '>')) with
    | '>' :: s2 => some (s.take (5 + run.length + 1) ++ txt, s2)
    | _ => none

/-- Matcher for a non-global case-insensitive literal pattern replaced by
`TXT$&` (insert `txt` before the first occurrence, preserving the matched
text); used for `/<\/head>/i` and `/<\/body>/i`. -/
def beforeLitMatcher (pat txt : List Char) (s : List Char) :
    Option (List Char × List Char) :=
  match lowPrefixDrop pat s with
  | none => none
  | some rest => some (txt ++ s.take pat.length, rest)
/-- Verbatim fallback-template segment before the page-title hostname interpolation (transcribed from the content endpoint source). -/
def fbSegA : List Char := ("\n          <!DOCTYPE html>\n          <html lang=\"en\">\n          <head>\n            <meta charset=\"UTF-8\">\n            <meta name=\"viewport\" content=\"width=device-width, initial-scale=1.0\">\n            <title>Educational Content - " : String).data

/-- Verbatim fallback-template segment between the hostname and the first targetUrl interpolation (transcribed from the content endpoint source). -/
def fbSegB : List Char := ("</title>\n            <style>\n              body \x7b\n                font-family: -apple-system, BlinkMacSystemFont, \x27Segoe UI\x27, Roboto, Arial, sans-serif;\n                line-height: 1.6;\n                color: #333;\n                max-width: 800px;\n                margin: 0 auto;\n                padding: 20px;\n                background: linear-gradient(135deg, #667eea 0%, #764ba2 100%);\n                min-height: 100vh;\n                display: flex;\n                align-items: center;\n                justify-content: center;\n              \x7d\n              .container \x7b\n                background: white;\n                padding: 2rem;\n                border-radius: 12px;\n                box-shadow: 0 10px 30px rgba(0,0,0,0.2);\n                text-align: center;\n                max-width: 500px;\n              \x7d\n              .icon \x7b\n                font-size: 4rem;\n                margin-bottom: 1rem;\n              \x7d\n              h1 \x7b\n                color: #2c3e50;\n                margin-bottom: 1rem;\n              \x7d\n              .url \x7b\n                color: #7f8c8d;\n                word-break: break-all;\n                background: #f8f9fa;\n                padding: 10px;\n                border-radius: 6px;\n                margin: 1rem 0;\n                font-family: monospace;\n                font-size: 0.9rem;\n              \x7d\n              .actions \x7b\n                margin-top: 2rem;\n              \x7d\n              .btn \x7b\n                display: inline-block;\n                padding: 12px 24px;\n                margin: 8px;\n                text-decoration: none;\n                border-radius: 6px;\n                font-weight: 500;\n                transition: all 0.3s ease;\n              \x7d\n              .btn-primary \x7b\n                background: #3498db;\n                color: white;\n              \x7d\n              .btn-primary:hover \x7b\n                background: #2980b9;\n                transform: translateY(-2px);\n              \x7d\n              .btn-secondary \x7b\n                background: #95a5a6;\n                color: white;\n              \x7d\n              .btn-secondary:hover \x7b\n                background: #7f8c8d;\n                transform: translateY(-2px);\n              \x7d\n              .info \x7b\n                margin-top: 1.5rem;\n                padding: 1rem;\n                background: #e8f4f8;\n                border-left: 4px solid #3498db;\n                border-radius: 4px;\n                text-align: left;\n                font-size: 0.9rem;\n              \x7d\n            </style>\n          </head>\n          <body>\n            <div class=\"container\">\n              <div class=\"icon\">\u00f0\u0178\u201c\u0161</div>\n              <h1>Educational Content Access</h1>\n              <p>We\x27re having trouble loading the educational content from this source.</p>\n              <div class=\"url\">" : String).data

/-- Verbatim fallback-template segment between the first and second targetUrl interpolations; ends with an opening anchor href attribute (transcribed from the content endpoint source). -/
def fbSegC : List Char := ("</div>\n              <div class=\"info\">\n                <strong>What happened?</strong><br>\n                The educational resource may have security restrictions or connectivity issues that prevent direct access through our learning portal.\n              </div>\n              <div class=\"actions\">\n                <a href=\"" : String).data

/-- Verbatim fallback-template segment between the second and third targetUrl interpolations; contains the retry button (transcribed from the content endpoint source). -/
def fbSegD : List Char := ("\" target=\"_blank\" class=\"btn btn-primary\">\n                  \u00f0\u0178\u201c\u2013 Open Original Source\n                </a>\n                <button onclick=\"window.parent.location.reload()\" class=\"btn btn-secondary\">\n                  \u00f0\u0178\u201d\u201e Try Again\n                </button>\n              </div>\n            </div>\n            <script>\n              // Attempt to redirect after a short delay if user doesn\x27t interact\n              setTimeout(() => \x7b\n                if (confirm(\x27Would you like to open the original educational resource in a new tab?\x27)) \x7b\n                  window.open(\x27" : String).data

/-- Verbatim fallback-template segment after the last targetUrl interpolation (transcribed from the content endpoint source). -/
def fbSegE : List Char := ("\x27, \x27_blank\x27);\n                \x7d\n              \x7d, 3000);\n            </script>\n          </body>\n          </html>\n        " : String).data

/-- Verbatim fbSegC without its trailing anchor-opening text, used to expose the outbound link in proofs (transcribed from the content endpoint source). -/
def fbSegCpre : List Char := ("</div>\n              <div class=\"info\">\n                <strong>What happened?</strong><br>\n                The educational resource may have security restrictions or connectivity issues that prevent direct access through our learning portal.\n              </div>\n              <div class=\"actions\">\n                " : String).data

/-- Verbatim fbSegD up to the retry onclick text (transcribed from the content endpoint source). -/
def fbSegD1 : List Char := ("\" target=\"_blank\" class=\"btn btn-primary\">\n                  \u00f0\u0178\u201c\u2013 Open Original Source\n                </a>\n                <button onclick=\"" : String).data

/-- Verbatim fbSegD after the retry onclick text (transcribed from the content endpoint source). -/
def fbSegD2 : List Char := ("\" class=\"btn btn-secondary\">\n                  \u00f0\u0178\u201d\u201e Try Again\n                </button>\n              </div>\n            </div>\n            <script>\n              // Attempt to redirect after a short delay if user doesn\x27t interact\n              setTimeout(() => \x7b\n                if (confirm(\x27Would you like to open the original educational resource in a new tab?\x27)) \x7b\n                  window.open(\x27" : String).data

/-- Verbatim the style block the endpoint prepends to the closing head tag (loader overlay CSS) (transcribed from the content endpoint source). -/
def enhancedStyles : List Char := ("\n            <style>\n              html, body \x7b margin: 0; padding: 0; width: 100%; height: 100%; overflow-x: auto; \x7d\n              * \x7b box-sizing: border-box; \x7d\n              \n              /* Fallback loading overlay */\n              #fallback-loader \x7b\n                position: fixed;\n                top: 0;\n                left: 0;\n                width: 100vw;\n                height: 100vh;\n                background: rgba(255, 255, 255, 0.95);\n                display: flex;\n                flex-direction: column;\n                align-items: center;\n                justify-content: center;\n                z-index: 999999;\n                font-family: -apple-system, BlinkMacSystemFont, \x27Segoe UI\x27, Roboto, Arial, sans-serif;\n                backdrop-filter: blur(5px);\n                transition: opacity 0.5s ease-out;\n              \x7d\n              \n              #fallback-loader.hidden \x7b\n                opacity: 0;\n                pointer-events: none;\n              \x7d\n              \n              .loader-spinner \x7b\n                border: 4px solid #f3f3f3;\n                border-top: 4px solid #007bff;\n                border-radius: 50%;\n                width: 50px;\n                height: 50px;\n                animation: spin 1s linear infinite;\n                margin-bottom: 20px;\n              \x7d\n              \n              @keyframes spin \x7b\n                0% \x7b transform: rotate(0deg); \x7d\n                100% \x7b transform: rotate(360deg); \x7d\n              \x7d\n              \n              .loader-text \x7b\n                color: #495057;\n                font-size: 16px;\n                text-align: center;\n                margin-bottom: 10px;\n              \x7d\n              \n              .loader-progress \x7b\n                width: 200px;\n                height: 4px;\n                background: #e9ecef;\n                border-radius: 2px;\n                overflow: hidden;\n                margin-bottom: 15px;\n              \x7d\n              \n              .loader-progress-bar \x7b\n                height: 100%;\n                background: linear-gradient(90deg, #007bff, #0056b3);\n                width: 0%;\n                transition: width 0.3s ease;\n                animation: progress 3s ease-in-out;\n              \x7d\n              \n              @keyframes progress \x7b\n                0% \x7b width: 0%; \x7d\n                50% \x7b width: 70%; \x7d\n                100% \x7b width: 100%; \x7d\n              \x7d\n              \n              .loader-subtitle \x7b\n                color: #6c757d;\n                font-size: 14px;\n                text-align: center;\n              \x7d\n            </style>\n          " : String).data

/-- Verbatim the loader script block the endpoint prepends to the closing body tag (transcribed from the content endpoint source). -/
def fallbackScript : List Char := ("\n            <script>\n              (function() \x7b\n                // Create fallback loader if it doesn\x27t exist\n                if (!document.getElementById(\x27fallback-loader\x27)) \x7b\n                  const loader = document.createElement(\x27div\x27);\n                  loader.id = \x27fallback-loader\x27;\n                  loader.innerHTML = \x60\n                    <div class=\"loader-spinner\"></div>\n                    <div class=\"loader-text\">Loading educational content...</div>\n                    <div class=\"loader-progress\">\n                      <div class=\"loader-progress-bar\"></div>\n                    </div>\n                    <div class=\"loader-subtitle\">Please wait while we prepare your study materials</div>\n                  \x60;\n                  document.body.insertBefore(loader, document.body.firstChild);\n                \x7d\n                \n                let loadStartTime = Date.now();\n                let loaderElement = document.getElementById(\x27fallback-loader\x27);\n                let hasLoaded = false;\n                \n                // Function to hide loader\n                function hideLoader() \x7b\n                  if (!hasLoaded && loaderElement) \x7b\n                    hasLoaded = true;\n                    loaderElement.classList.add(\x27hidden\x27);\n                    setTimeout(() => \x7b\n                      if (loaderElement && loaderElement.parentNode) \x7b\n                        loaderElement.parentNode.removeChild(loaderElement);\n                      \x7d\n                    \x7d, 500);\n                  \x7d\n                \x7d\n                \n                // Multiple strategies to detect when page is ready\n                let readyChecks = 0;\n                let maxChecks = 30; // 15 seconds max\n                \n                function checkIfReady() \x7b\n                  readyChecks++;\n                  \n                  // Check if main content is visible\n                  const hasVisibleContent = (\n                    document.body.offsetHeight > 100 ||\n                    document.querySelectorAll(\x27img, video, iframe, canvas\x27).length > 0 ||\n                    document.querySelectorAll(\x27div, section, article, main\x27).length > 5\n                  );\n                  \n                  // Check if enough time has passed\n                  const timeElapsed = Date.now() - loadStartTime;\n                  const minLoadTime = 1500; // Minimum 1.5 seconds\n                  \n                  if ((hasVisibleContent && timeElapsed > minLoadTime) || \n                      readyChecks >= maxChecks || \n                      timeElapsed > 15000) \x7b\n                    hideLoader();\n                    return;\n                  \x7d\n                  \n                  // Continue checking\n                  setTimeout(checkIfReady, 500);\n                \x7d\n                \n                // Start checking when DOM is ready\n                if (document.readyState === \x27loading\x27) \x7b\n                  document.addEventListener(\x27DOMContentLoaded\x27, () => \x7b\n                    setTimeout(checkIfReady, 100);\n                  \x7d);\n                \x7d else \x7b\n                  setTimeout(checkIfReady, 100);\n                \x7d\n                \n                // Fallback: Always hide after reasonable time\n                setTimeout(hideLoader, 20000);\n                \n                // Hide on window load as backup\n                window.addEventListener(\x27load\x27, () => \x7b\n                  setTimeout(hideLoader, 1000);\n                \x7d);\n                \n                // Error handling\n                window.addEventListener(\x27error\x27, (e) => \x7b\n                  console.warn(\x27Page load error detected:\x27, e.message);\n                  setTimeout(hideLoader, 2000);\n                \x7d);\n                \n              \x7d)();\n            </script>\n          " : String).data

/-- The `href` root-relative rewrite, `html.replace(/href=["']\/([^"']*?)["']/g, ...)`. -/
def rwHref (base h : List Char) : List Char := scanReplace (attrMatcher (str "href") base) h

/-- The `src` root-relative rewrite. -/
def rwSrc (base h : List Char) : List Char := scanReplace (attrMatcher (str "src") base) h

/-- The `action` root-relative rewrite. -/
def rwAction (base h : List Char) : List Char := scanReplace (attrMatcher (str "action") base) h

/-- The CSS `url(...)` root-relative rewrite. -/
def rwCssUrl (base h : List Char) : List Char := scanReplace (cssUrlMatcher base) h

/-- The four URL-rebasing replacements of the processing block, in source
order. -/
def rwUrls (base h : List Char) : List Char :=
  rwCssUrl base (rwAction base (rwSrc base (rwHref base h)))

/-- Strip `<script ... archive.org ...>...</script>` Wayback artifacts. -/
def stripArchiveScript (h : List Char) : List Char :=
  scanReplace (tagBlockMatcher (str "<script") (str "archive.org") (str "</script>")) h

/-- Strip `<div ... wm-ipp ...>...</div>` Wayback toolbar blocks. -/
def stripWmIpp (h : List Char) : List Char :=
  scanReplace (tagBlockMatcher (str "<div") (str "wm-ipp") (str "</div>")) h

/-- Strip `/* playback timers */ ... /* End Wayback Rewrite *` comment runs. -/
def stripPlayback (h : List Char) : List Char := scanReplace playbackMatcher h

/-- Strip `<meta ... http-equiv=["']?X-Frame-Options ...>` tags. -/
def stripXFrameMeta (h : List Char) : List Char :=
  scanReplace (metaMatcher (str "http-equiv=") (str "x-frame-options")) h

/-- Strip `<meta ... name=["']?viewport ...>` tags. -/
def stripViewportMeta (h : List Char) : List Char :=
  scanReplace (metaMatcher (str "name=") (str "viewport")) h

/-- Base-tag insertion: `if (!html.includes('<base ')) html.replace(/<head[^>]*>/i, ...)`. -/
def baseTagStep (base h : List Char) : List Char :=
  if containsSub (str "<base ") h then h
  else
    scanReplaceFirst
      (headTagMatcher (str "\n    <base href=\"" ++ base ++ str "/\">")) h

/-- Unconditional viewport insertion after the first opening head tag. -/
def viewportStep (h : List Char) : List Char :=
  scanReplaceFirst
    (headTagMatcher
      (str "\n    <meta name=\"viewport\" content=\"width=device-width, initial-scale=1.0\">"))
    h

/-- Insertion of the loader styles before the first `</head>`. -/
def stylesStep (h : List Char) : List Char :=
  scanReplaceFirst (beforeLitMatcher (str "</head>") (enhancedStyles ++ str "\n")) h

/-- Insertion of the loader script before the first `</body>`. -/
def scriptStep (h : List Char) : List Char :=
  scanReplaceFirst (beforeLitMatcher (str "</body>") (fallbackScript ++ str "\n")) h

/-- The whole HTML processing block of `/api/proxy/content` (the `rewrite` of
the spec together with the readiness-instrumentation injection), applied to a
successfully fetched document with `base = url.protocol + "//" + url.host`. -/
def processHtml (base h : List Char) : List Char :=
  scriptStep (stylesStep (viewportStep (baseTagStep base
    (stripViewportMeta (stripXFrameMeta (stripPlayback (stripWmIpp
      (stripArchiveScript (rwUrls base h)))))))))

/-- Scheme characters accepted by the modelled URL parser. -/
def isSchemeChar (c : Char) : Bool := c.isAlpha

/-- Host characters accepted by the modelled URL parser. -/
def isHostChar (c : Char) : Bool :=
  c.isAlphanum || c == '.' || c == '-' || c == '_' || c == ':'

/-- The parts of a parsed URL used by the endpoint: `protocol` keeps the
trailing colon and `host` keeps the port, as in the WHATWG `URL` class. -/
structure UrlParts where
  protocol : List Char
  host : List Char
  hostname : List Char
deriving Repr, DecidableEq

/-- Model of the WHATWG `new URL(s)` constructor, restricted to hierarchical
`scheme://host[/...]` URLs: `none` models the constructor throwing.  User-info,
IPv6 hosts, percent-encoding and non-hierarchical schemes such as `mailto:`
are outside the modelled domain. -/
def parseUrl (s : List Char) : Option UrlParts :=
  let scheme := s.takeWhile isSchemeChar
  let rest := s.dropWhile isSchemeChar
  if scheme.isEmpty then none
  else
    match rest with
    | ':' :: '/' :: '/' :: r =>
      let auth := r.takeWhile (fun c => !(c == '/') && !(c == '?') && !(c == '#'))
      if auth.isEmpty || !(auth.all isHostChar) then none
      else
        let host := lowerL auth
        some ⟨lowerL scheme ++ [':'], host, host.takeWhile (fun c => !(c == ':'))⟩
    | _ => none

/-- `url.protocol + "//" + url.host`, the rebase origin computed by the
processing block. -/
def baseUrlOf (p : UrlParts) : List Char := p.protocol ++ str "//" ++ p.host

/-- The synthesized fallback (placeholder) page of the content endpoint: the
template literal with `urlObj.hostname` and three `targetUrl` interpolations. -/
def fallbackPage (targetUrl hostname : List Char) : List Char :=
  fbSegA ++ hostname ++ fbSegB ++ targetUrl ++ fbSegC ++ targetUrl ++ fbSegD ++
    targetUrl ++ fbSegE

/-- Outcome of one outbound call: a rejected promise (network error, abort
timeout, invalid URL, malformed JSON) or a settled value. -/
inductive NetResult (α : Type) where
  | throws : NetResult α
  | success : α → NetResult α
deriving Repr, DecidableEq

/-- A settled `fetch` response as consumed by the endpoint: its status, the
`content-type` header (`''` when absent) and the decoded body text. -/
structure HttpResp where
  status : Nat
  contentType : List Char
  body : List Char
deriving Repr, DecidableEq

/-- `Response.ok`: status in the 2xx range. -/
def respOk (r : HttpResp) : Bool := 200 ≤ r.status && r.status < 300

/-- `contentType.includes('text/html')`. -/
def ctHtml (r : HttpResp) : Bool := containsSub (str "text/html") r.contentType

/-- The parsed Wayback availability response: `ok` is `waybackResponse.ok`,
`available` is `archived_snapshots?.closest?.available`, `snapshotUrl` is
`archived_snapshots.closest.url`. -/
structure WaybackInfo where
  ok : Bool
  available : Bool
  snapshotUrl : List Char
deriving Repr, DecidableEq

/-- The environment of one acquisition: the outcome each of the (at most four)
outbound calls would have.  Header profiles and per-call timeouts are carried
by the real calls and abstracted here. -/
structure FetchEnv where
  direct : NetResult HttpResp
  mobile : NetResult HttpResp
  waybackLookup : NetResult WaybackInfo
  waybackFetch : NetResult HttpResp
deriving Repr, DecidableEq

/-- The outbound calls the handler can issue, in the order they are issued. -/
inductive NetCall where
  | directFetch
  | mobileFetch
  | waybackLookupCall
  | waybackFetchCall
deriving Repr, DecidableEq

/-- State threaded through the strategy chain: the mutable `html`, `success`
and `fetchMethod` variables of the handler, plus the instrumentation trace of
issued calls. -/
structure ChainSt where
  html : List Char
  success : Bool
  method : String
  trace : List NetCall
deriving Repr, DecidableEq

/-- `html && html.trim().length > 100`: the body validation shared by all
strategies (`100` is the minimum-acceptable-body-length cutoff: a body must
exceed it after trimming). -/
def bodyOk (b : List Char) : Bool := !b.isEmpty && 100 < (jsTrim b).length

/-- Strategy 1, the direct desktop-identity fetch: on a 2xx response whose
content type includes `text/html` the body is assigned to `html`; `success`
is set only if the trimmed body exceeds the length cutoff.  Every failure is
caught locally. -/
def step1 (env : FetchEnv) : ChainSt :=
  let res : List Char × Bool × String :=
    match env.direct with
    | .throws => ([], false, "none")
    | .success r =>
      if respOk r then
        if ctHtml r then
          if bodyOk r.body then (r.body, true, "direct")
          else (r.body, false, "none")
        else ([], false, "none")
      else ([], false, "none")
  ⟨res.1, res.2.1, res.2.2, [.directFetch]⟩

/-- Strategy 2, the mobile-identity fetch, guarded by `if (!success)`. -/
def step2 (env : FetchEnv) (s : ChainSt) : ChainSt :=
  if s.success then s
  else
    let res : List Char × Bool × String :=
      match env.mobile with
      | .throws => (s.html, false, s.method)
      | .success r =>
        if respOk r then
          if ctHtml r then
            if bodyOk r.body then (r.body, true, "mobile")
            else (r.body, false, s.method)
          else (s.html, false, s.method)
        else (s.html, false, s.method)
    ⟨res.1, res.2.1, res.2.2, s.trace ++ [.mobileFetch]⟩

/-- Strategy 3, the Wayback Machine fetch, guarded by `if (!success)`: a
lookup call first; only when the lookup response is ok and reports an
available closest snapshot is the snapshot itself fetched (with no
content-type check). -/
def step3 (env : FetchEnv) (s : ChainSt) : ChainSt :=
  if s.success then s
  else
    match env.waybackLookup with
    | .throws => { s with trace := s.trace ++ [.waybackLookupCall] }
    | .success lk =>
      if lk.ok then
        if lk.available then
          let res : List Char × Bool × String :=
            match env.waybackFetch with
            | .throws => (s.html, false, s.method)
            | .success r =>
              if respOk r then
                if bodyOk r.body then (r.body, true, "wayback")
                else (r.body, false, s.method)
              else (s.html, false, s.method)
          ⟨res.1, res.2.1, res.2.2, s.trace ++ [.waybackLookupCall, .waybackFetchCall]⟩
        else { s with trace := s.trace ++ [.waybackLookupCall] }
      else { s with trace := s.trace ++ [.waybackLookupCall] }

/-- The full strategy chain of the content endpoint. -/
def runChain (env : FetchEnv) : ChainSt := step3 env (step2 env (step1 env))

/-- The HTTP outcome of the content endpoint: response status, response body
and the trace of outbound calls issued. -/
structure HandlerOut where
  status : Nat
  body : List Char
  trace : List NetCall
deriving Repr, DecidableEq

/-- Body of the 400 response (`message` field of the JSON error). -/
def errRequired : List Char := str "Target URL is required"

/-- Body of the 500 response (`message` field of the JSON error). -/
def errFetch : List Char := str "Failed to fetch content"

/-- The `/api/proxy/content` handler: strategy chain, fallback-page synthesis
(whose `new URL(targetUrl)` throws to the outer catch on an unparsable URL,
yielding the 500 JSON error), and HTML processing of successfully fetched
documents (whose own `new URL` failure is caught locally, delivering the
unprocessed document). -/
def contentHandler (targetUrl : Option (List Char)) (env : FetchEnv) : HandlerOut :=
  match targetUrl with
  | none => ⟨400, errRequired, []⟩
  | some u =>
    if u.isEmpty then ⟨400, errRequired, []⟩
    else
      let c := runChain env
      let fb : Option ChainSt :=
        if c.success = false ∨ c.html = [] ∨ (jsTrim c.html).length < 100 then
          match parseUrl u with
          | none => none
          | some p => some { c with html := fallbackPage u p.hostname, method := "fallback" }
        else some c
      match fb with
      | none => ⟨500, errFetch, c.trace⟩
      | some c2 =>
        let body :=
          if c2.success = true ∧ c2.html ≠ [] then
            match parseUrl u with
            | none => c2.html
            | some p => processHtml (baseUrlOf p) c2.html
          else c2.html
        ⟨200, body, c2.trace⟩
/-- Strategy 1 would be classified usable: a settled 2xx `text/html` response
whose trimmed body exceeds the length cutoff. -/
def directUsable (env : FetchEnv) : Bool :=
  match env.direct with
  | .throws => false
  | .success r => respOk r && ctHtml r && bodyOk r.body

/-- Strategy 2 would be classified usable. -/
def mobileUsable (env : FetchEnv) : Bool :=
  match env.mobile with
  | .throws => false
  | .success r => respOk r && ctHtml r && bodyOk r.body

/-- The opening of the outbound anchor of the placeholder page, with its
`href` set to the target URL. -/
def anchorHref (u : List Char) : List Char := str "<a href=\"" ++ u ++ str "\""

/-- The client-side retry affordance of the placeholder page (the reload
handler of its Try Again button). -/
def retryAffordance : List Char := str "window.parent.location.reload()"

/-- `fbSegD` with its leading quote removed (the quote closes the anchor href
attribute). -/
def fbSegDrest : List Char := fbSegD.drop 1

/-! ### The `/api/proxy/request` active-connections counter

`registerRoutes` owns a numeric `activeConnections` shared by all concurrent
requests to the plain-proxy endpoint.  Each request performs, atomically with
respect to the single-threaded event loop,
`activeConnections++; updateActiveConnections(activeConnections)` on entry and
`activeConnections--; updateActiveConnections(Math.max(0, activeConnections))`
in its `finally` block. -/

/-- One atomic counter event of a plain-proxy request: its entry
increment-and-store or its `finally` decrement-and-store. -/
inductive ConnEvent where
  | start
  | finish
deriving Repr, DecidableEq

/-- A trace is a legal interleaving of requests when, starting from counter
value `c`, every `finish` is matched by a strictly positive counter (each
request contributes one `start` before its own `finish`). -/
def connValid : Int → List ConnEvent → Bool
  | _, [] => true
  | c, .start :: t => connValid (c + 1) t
  | c, .finish :: t => decide (1 ≤ c) && connValid (c - 1) t

/-- The successive values written to the statistics store along a trace:
`c + 1` at each `start`, `Math.max(0, c - 1)` at each `finish`. -/
def connWrites : Int → List ConnEvent → List Int
  | _, [] => []
  | c, .start :: t => (c + 1) :: connWrites (c + 1) t
  | c, .finish :: t => max 0 (c - 1) :: connWrites (c - 1) t

/-! ### `MemStorage` request log (shared schema `proxy_requests` row) -/

/-- A `ProxyRequest` record as selected from the `proxy_requests` table;
`timestamp` is modelled by `Date.getTime()` milliseconds. -/
structure ProxyRequest where
  id : String
  targetUrl : String
  method : String
  statusCode : Int
  duration : Int
  responseSize : Int
  timestamp : Nat
  userAgent : Option String
  errorMessage : Option String
deriving Repr, DecidableEq

/-- The comparator `(a, b) => b.timestamp.getTime() - a.timestamp.getTime()`
as the ordering it induces: newest first. -/
def tsDesc (a b : ProxyRequest) : Prop := b.timestamp ≤ a.timestamp

instance : DecidableRel tsDesc := fun a b => Nat.decLe b.timestamp a.timestamp

instance : IsTotal ProxyRequest tsDesc := ⟨fun a b => Nat.le_total b.timestamp a.timestamp⟩

instance : IsTrans ProxyRequest tsDesc := ⟨fun _ _ _ h1 h2 => Nat.le_trans h2 h1⟩

/-- `Array.from(map.values()).sort(byTimestampDesc)`: ECMAScript sort is a
stable sort and the comparator induces a total preorder, so its output is the
insertion sort by `tsDesc`. -/
def sortByTimestampDesc (l : List ProxyRequest) : List ProxyRequest :=
  List.insertionSort tsDesc l

/-- `Array.prototype.slice(s, e)` with ECMAScript semantics: negative indices
count from the end, indices are clamped to the array bounds. -/
def jsSlice {α : Type} (l : List α) (s e : Int) : List α :=
  let len : Int := l.length
  let rs : Int := if s < 0 then max (len + s) 0 else min s len
  let re : Int := if e < 0 then max (len + e) 0 else min e len
  (l.drop rs.toNat).take (re - rs).toNat

/-- `MemStorage.getProxyRequests(limit = 50, offset = 0)`: copy the map values,
sort newest first, return `slice(offset, offset + limit)`.  The store is
returned unchanged (the sort happens on the `Array.from` copy). -/
def getProxyRequestsOp (store : List ProxyRequest) (limit offset : Int) :
    List ProxyRequest × List ProxyRequest :=
  (jsSlice (sortByTimestampDesc store) offset (offset + limit), store)

/-! ### Concrete inputs used by counterexamples and witnesses -/

/-- A well-formed target URL. -/
def exUrl : List Char := str "https://example.com"

/-- Its parse. -/
def exParts : UrlParts := ⟨str "https:", str "example.com", str "example.com"⟩

/-- The rebase origin of `exUrl`. -/
def exBase : List Char := str "https://example.com"

/-- A target URL the WHATWG `URL` constructor rejects. -/
def badUrl : List Char := str "not a valid url"

/-- An environment in which every outbound call rejects (the necessary
behaviour of `fetch` on an unparsable URL, and of an unreachable target). -/
def throwEnv : FetchEnv := ⟨.throws, .throws, .throws, .throws⟩

/-- An upstream body that consists of one Wayback-artifact script and nothing
else: 2xx, `text/html`, trimmed length 172 > 100, yet erased entirely by the
artifact strip of the processing block. -/
def artifactBody : List Char :=
  str "<script src=\"https://web.archive.org/x.js\">" ++ List.replicate 120 'a' ++
    str "</script>"

/-- Environment whose direct fetch succeeds with `artifactBody`. -/
def artifactEnv : FetchEnv :=
  ⟨.success ⟨200, str "text/html; charset=utf-8", artifactBody⟩, .throws, .throws, .throws⟩

/-- A plain usable upstream body (150 non-whitespace characters). -/
def bigBody : List Char := List.replicate 150 'a'

/-- Environment whose direct (desktop-identity) fetch is usable. -/
def envDirectOk : FetchEnv :=
  ⟨.success ⟨200, str "text/html", bigBody⟩, .throws, .throws, .throws⟩

/-- Environment whose direct fetch times out but whose mobile-identity fetch
is usable. -/
def envMobileOk : FetchEnv :=
  ⟨.throws, .success ⟨200, str "text/html", bigBody⟩, .throws, .throws⟩

/-- Environment whose direct fetch returns 200 `text/html` with a too-short
body, all later calls rejecting. -/
def envShortBody : FetchEnv :=
  ⟨.success ⟨200, str "text/html", str "short"⟩, .throws, .throws, .throws⟩

/-- Environment whose snapshot lookup settles ok but reports no available
snapshot, while the snapshot fetch itself would have been usable. -/
def envNoSnapshot : FetchEnv :=
  ⟨.throws, .throws, .success ⟨true, false, str "https://web.archive.org/web/1/x"⟩,
    .success ⟨200, str "text/html", bigBody⟩⟩

/-- The idempotence test input: root-relative link, inline `url(...)` style
and a pre-existing `<base>` tag. -/
def idemInput : List Char :=
  str "<head><base href=\"/b\"><a href=\"/docs\">x</a><div style=\"background:url(/i.png)\">"

/-- Rewrite input with no `<base ` and an opening head tag. -/
def baseZero : List Char := str "<head><title>t</title>"

/-- Rewrite input with exactly one `<base ` tag. -/
def baseOne : List Char := str "<head><base href=\"/x\">"

/-- Rewrite input with two `<base ` tags. -/
def baseTwo : List Char := str "<head><base href=\"/a\"><base href=\"/b\">"

/-- Rewrite input with no `<base ` and no head tag. -/
def baseNoHead : List Char := str "<div>x</div>"

/-- A legal two-request interleaving: both enter, then both finish. -/
def connTrace : List ConnEvent := [.start, .start, .finish, .finish]

/-- Two stored log records (distinct timestamps). -/
def reqA : ProxyRequest :=
  ⟨"a", "https://a.example", "GET", 200, 10, 100, 1000, none, none⟩

/-- Second stored log record, newer. -/
def reqB : ProxyRequest :=
  ⟨"b", "https://b.example", "GET", 500, 20, 0, 2000, none, some "boom"⟩

/-- A store holding the two records in insertion order. -/
def c10store : List ProxyRequest := [reqA, reqB]
set_option maxRecDepth 100000

/-! ### Helper lemmas about the strategy chain -/

/-- Strategy 1 always issues exactly the direct fetch. -/
theorem step1_trace (env : FetchEnv) : (step1 env).trace = [NetCall.directFetch] := rfl

/-- Strategy 1 succeeds exactly when the direct response is usable. -/
theorem step1_success (env : FetchEnv) : (step1 env).success = directUsable env := by
  rcases h : env.direct with _ | r
  · simp [step1, directUsable, h]
  · simp only [step1, directUsable, h]
    split_ifs <;> simp_all

/-- A successful state short-circuits strategy 2. -/
theorem step2_skip (env : FetchEnv) (s : ChainSt) (h : s.success = true) :
    step2 env s = s := by
  simp [step2, h]

/-- A successful state short-circuits strategy 3. -/
theorem step3_skip (env : FetchEnv) (s : ChainSt) (h : s.success = true) :
    step3 env s = s := by
  simp [step3, h]

/-- On a failed state, strategy 2 issues exactly one further call. -/
theorem step2_trace (env : FetchEnv) (s : ChainSt) (h : s.success = false) :
    (step2 env s).trace = s.trace ++ [NetCall.mobileFetch] := by
  simp [step2, h]

/-- On a failed state, strategy 2 succeeds exactly when the mobile response is
usable. -/
theorem step2_success (env : FetchEnv) (s : ChainSt) (h : s.success = false) :
    (step2 env s).success = mobileUsable env := by
  rcases hm : env.mobile with _ | r
  · simp [step2, h, mobileUsable, hm]
  · simp only [step2, h, mobileUsable, hm, Bool.false_eq_true, if_false]
    split_ifs <;> simp_all

/-- Strategy 2 cannot un-succeed a state. -/
theorem step2_fail_of_fail (env : FetchEnv) (s : ChainSt)
    (h : (step2 env s).success = false) : s.success = false := by
  cases hs : s.success
  · rfl
  · rw [step2_skip env s hs] at h; simp [hs] at h

/-- On a failed state, strategy 3 always issues the snapshot lookup. -/
theorem step3_lookup_mem (env : FetchEnv) (s : ChainSt) (h : s.success = false) :
    NetCall.waybackLookupCall ∈ (step3 env s).trace := by
  rcases hl : env.waybackLookup with _ | lk
  · simp [step3, h, hl]
  · simp only [step3, h, hl, Bool.false_eq_true, if_false]
    split_ifs <;> simp

/-- Strategy 3 never removes calls from the trace. -/
theorem step3_mem (env : FetchEnv) (s : ChainSt) (x : NetCall) (hx : x ∈ s.trace) :
    x ∈ (step3 env s).trace := by
  by_cases hs : s.success = true
  · rw [step3_skip env s hs]; exact hx
  · have h : s.success = false := by simpa using hs
    rcases hl : env.waybackLookup with _ | lk
    · simp [step3, h, hl, hx]
    · simp only [step3, h, hl, Bool.false_eq_true, if_false]
      split_ifs <;> simp [hx]

/-- When the lookup settles ok but reports no available snapshot, strategy 3
only records the lookup call and leaves the state otherwise unchanged. -/
theorem step3_no_snapshot (env : FetchEnv) (s : ChainSt) (lk : WaybackInfo)
    (h : s.success = false) (hlk : env.waybackLookup = NetResult.success lk)
    (hok : lk.ok = true) (hna : lk.available = false) :
    step3 env s = { s with trace := s.trace ++ [NetCall.waybackLookupCall] } := by
  simp [step3, h, hlk, hok, hna]

/-- A body whose trimmed length does not exceed the cutoff is not usable. -/
theorem bodyOk_false {b : List Char} (h : (jsTrim b).length ≤ 100) :
    bodyOk b = false := by
  have hn : ¬ (100 < (jsTrim b).length) := Nat.not_lt.mpr h
  simp [bodyOk, hn]

/-- The empty target URL does not parse. -/
theorem parseUrl_nil : parseUrl [] = none := rfl

/-- `fbSegC` ends with the opening of the outbound anchor. -/
theorem fbSegC_split : fbSegC = fbSegCpre ++ str "<a href=\"" := by decide

/-- `fbSegD` starts with the quote closing the anchor href. -/
theorem fbSegD_split : fbSegD = str "\"" ++ fbSegDrest := by decide

/-- `fbSegD` contains the retry affordance. -/
theorem fbSegD_retry : fbSegD = fbSegD1 ++ retryAffordance ++ fbSegD2 := by decide

/-- Values written by a legal interleaving from a nonnegative counter are
nonnegative. -/
theorem connWrites_nonneg : ∀ (tr : List ConnEvent) (c : Int), 0 ≤ c →
    connValid c tr = true → ∀ w ∈ connWrites c tr, 0 ≤ w := by
  intro tr
  induction tr with
  | nil => intro c hc hv w hw; simp [connWrites] at hw
  | cons e t ih =>
    intro c hc hv w hw
    cases e with
    | start =>
      rw [connValid] at hv
      rw [connWrites] at hw
      rcases List.mem_cons.mp hw with h | h
      · omega
      · exact ih (c + 1) (by omega) hv w h
    | finish =>
      rw [connValid, Bool.and_eq_true, decide_eq_true_eq] at hv
      rw [connWrites] at hw
      rcases List.mem_cons.mp hw with h | h
      · rw [h]; exact le_max_left 0 _
      · exact ih (c - 1) (by omega) hv.2 w h

/-! ### Claim theorems -/

/-- C1 (counterexample): the claim "for every well-formed targetUrl the
endpoint responds 200 with a *non-empty* HTML document" fails: an upstream
2xx `text/html` body consisting solely of a Wayback-artifact script (trimmed
length 172 > 100) is accepted by the direct strategy, then erased entirely by
the artifact strip of the processing block, and the endpoint sends status 200
with an empty body. -/
theorem C1_counterexample :
    (contentHandler (some exUrl) artifactEnv).status = 200 ∧
    (contentHandler (some exUrl) artifactEnv).body = [] := by decide

/-- C1 (amended): for every syntactically well-formed targetUrl (one the URL
constructor accepts), whatever the outcome of every fetch strategy, the
content endpoint responds with HTTP 200 — in particular never with a 5xx;
the body may however be empty in the artifact-strip corner case. -/
theorem C1_amended_always_200 (u : List Char) (env : FetchEnv)
    (hp : (parseUrl u).isSome = true) :
    (contentHandler (some u) env).status = 200 := by
  obtain ⟨p, hp'⟩ := Option.isSome_iff_exists.mp hp
  have hne : u.isEmpty = false := by
    cases u with
    | nil => rw [parseUrl_nil] at hp'; cases hp'
    | cons a l => rfl
  simp only [contentHandler, hne, Bool.false_eq_true, if_false]
  split
  · next heq => rw [hp'] at heq; split at heq <;> simp_all
  · simp

/-- C1 (witness): at the concrete well-formed URL with every call rejecting,
the endpoint still answers 200. -/
theorem C1_witness :
    (parseUrl exUrl).isSome = true ∧
    (contentHandler (some exUrl) throwEnv).status = 200 :=
  ⟨by decide, C1_amended_always_200 exUrl throwEnv (by decide)⟩

/-- C2 (counterexample): the claim "a present but syntactically invalid
targetUrl still resolves to the placeholder and the endpoint responds 200"
fails: with `targetUrl = "not a valid url"` every strategy fails, the
fallback synthesis itself throws in `new URL(targetUrl)`, and the endpoint
responds 500, not 200. -/
theorem C2_counterexample :
    (contentHandler (some badUrl) throwEnv).status = 500 ∧
    ¬ (contentHandler (some badUrl) throwEnv).status = 200 := by decide

/-- C2 (amended): for every present, non-empty targetUrl rejected by the URL
constructor, once every fetch strategy has failed (as it must for an
unparsable URL), the fallback-page synthesis throws and the endpoint responds
with the 500 JSON error — the placeholder is never produced and the response
is not 200. -/
theorem C2_amended_malformed_500 (u : List Char) (env : FetchEnv)
    (hne : u ≠ []) (hp : parseUrl u = none)
    (hfail : (runChain env).success = false) :
    contentHandler (some u) env = ⟨500, errFetch, (runChain env).trace⟩ := by
  have hne' : u.isEmpty = false := by
    cases u with
    | nil => exact absurd rfl hne
    | cons a l => rfl
  simp only [contentHandler, hne', Bool.false_eq_true, if_false]
  rw [if_pos (Or.inl hfail), hp]

/-- C2 (witness): the amended statement at the concrete malformed URL. -/
theorem C2_witness :
    badUrl ≠ [] ∧ parseUrl badUrl = none ∧ (runChain throwEnv).success = false ∧
    contentHandler (some badUrl) throwEnv = ⟨500, errFetch, (runChain throwEnv).trace⟩ :=
  ⟨by decide, by decide, by decide,
    C2_amended_malformed_500 badUrl throwEnv (by decide) (by decide) (by decide)⟩

/-- C3 (counterexample): the claim "the HTML rewriting transformation is
idempotent for every HTML string" fails on a representative input containing
a root-relative link, an inline `url(...)` style and a pre-existing `<base>`
tag: a second application strips the viewport meta tag it inserted and
re-inserts it with fresh surrounding whitespace, so the documents differ. -/
theorem C3_counterexample :
    processHtml exBase (processHtml exBase idemInput) ≠ processHtml exBase idemInput := by
  decide

/-- C3 (amended): the rewrite is not idempotent.  On the representative input
the URL-rebasing replacements and the conditional base-tag insertion are
stable under reapplication, but the viewport meta strip undoes the previous
pass's unconditional insertion (and the style/script injections are likewise
unconditional), so applying the processing block to its own output changes
the document. -/
theorem C3_amended_not_idempotent :
    rwUrls exBase (rwUrls exBase idemInput) = rwUrls exBase idemInput ∧
    baseTagStep exBase (baseTagStep exBase idemInput) = baseTagStep exBase idemInput ∧
    stripViewportMeta (viewportStep idemInput) ≠ idemInput ∧
    processHtml exBase (processHtml exBase idemInput) ≠ processHtml exBase idemInput := by
  refine ⟨by decide, by decide, by decide, by decide⟩

/-- C4 (counterexample): the claim "the rewrite output contains exactly one
base tag regardless of the input" fails: an input already containing two
`<base ` tags keeps both (the insertion is skipped because `<base ` is
present), so the output contains two, not one. -/
theorem C4_counterexample :
    countSub (str "<base ") (processHtml exBase baseTwo) = 2 ∧
    ¬ countSub (str "<base ") (processHtml exBase baseTwo) = 1 := by decide

/-- C4 (amended): the rewrite inserts a base tag only when the input contains
no `<base ` at all (and then only after an opening head tag): any input
already containing `<base ` passes through the insertion step unchanged, so
an input with zero base tags and a head gains exactly one, inputs with one or
several keep their count, and an input with no head tag gains none. -/
theorem C4_amended_base_insertion :
    (∀ (b h : List Char), containsSub (str "<base ") h = true →
      baseTagStep b h = h) ∧
    countSub (str "<base ") (processHtml exBase baseZero) = 1 ∧
    countSub (str "<base ") (processHtml exBase baseOne) = 1 ∧
    countSub (str "<base ") (processHtml exBase baseTwo) = 2 ∧
    countSub (str "<base ") (processHtml exBase baseNoHead) = 0 := by
  refine ⟨?_, by decide, by decide, by decide, by decide⟩
  intro b h hc
  simp [baseTagStep, hc]

/-- C4 (witness): the universal part of the amended claim at a concrete input
that already contains base tags. -/
theorem C4_witness :
    containsSub (str "<base ") baseTwo = true ∧
    baseTagStep exBase baseTwo = baseTwo :=
  ⟨by decide, C4_amended_base_insertion.1 exBase baseTwo (by decide)⟩

/-- C5: strategy attempts short-circuit strictly.  If the direct (desktop)
strategy is usable, the trace of issued calls is exactly the direct fetch —
no mobile fetch, no snapshot lookup, no snapshot fetch.  If the direct
strategy fails and the mobile strategy is usable, the trace is exactly the
direct then the mobile fetch — the archival strategy issues no call.  (For
the third, last strategy the property is vacuous.) -/
theorem C5_short_circuit (env : FetchEnv) :
    (directUsable env = true → (runChain env).trace = [NetCall.directFetch]) ∧
    (directUsable env = false → mobileUsable env = true →
      (runChain env).trace = [NetCall.directFetch, NetCall.mobileFetch]) := by
  constructor
  · intro h
    have h1 : (step1 env).success = true := (step1_success env).trans h
    rw [runChain, step2_skip env _ h1, step3_skip env _ h1, step1_trace]
  · intro h hm
    have h1 : (step1 env).success = false := (step1_success env).trans h
    have h2 : (step2 env (step1 env)).success = true :=
      (step2_success env _ h1).trans hm
    rw [runChain, step3_skip env _ h2, step2_trace env _ h1, step1_trace]
    rfl

/-- C5 (witness): the short-circuit at a usable direct strategy and at a
usable mobile strategy after a direct timeout. -/
theorem C5_witness :
    (directUsable envDirectOk = true ∧
      (runChain envDirectOk).trace = [NetCall.directFetch]) ∧
    (directUsable envMobileOk = false ∧ mobileUsable envMobileOk = true ∧
      (runChain envMobileOk).trace = [NetCall.directFetch, NetCall.mobileFetch]) :=
  ⟨⟨by decide, (C5_short_circuit envDirectOk).1 (by decide)⟩,
    ⟨by decide, by decide, (C5_short_circuit envMobileOk).2 (by decide) (by decide)⟩⟩

/-- C6: a strategy attempt receiving a 2xx response with an accepted content
type but a trimmed body not exceeding the 100-character cutoff is classified
as failed, and the chain advances to the next strategy: for the direct
strategy the mobile fetch is then issued, and for the mobile strategy the
snapshot lookup is then issued. -/
theorem C6_min_body_threshold (env : FetchEnv) :
    (∀ r : HttpResp, env.direct = NetResult.success r → respOk r = true →
      ctHtml r = true → (jsTrim r.body).length ≤ 100 →
      (step1 env).success = false ∧ NetCall.mobileFetch ∈ (runChain env).trace) ∧
    (∀ r : HttpResp, env.mobile = NetResult.success r →
      (step1 env).success = false → respOk r = true → ctHtml r = true →
      (jsTrim r.body).length ≤ 100 →
      (step2 env (step1 env)).success = false ∧
        NetCall.waybackLookupCall ∈ (runChain env).trace) := by
  constructor
  · intro r hd hok hct hshort
    have h1 : (step1 env).success = false := by
      rw [step1_success]; simp [directUsable, hd, bodyOk_false hshort]
    refine ⟨h1, ?_⟩
    rw [runChain]
    apply step3_mem
    rw [step2_trace env _ h1]
    simp
  · intro r hm h1 hok hct hshort
    have h2 : (step2 env (step1 env)).success = false := by
      rw [step2_success env _ h1]; simp [mobileUsable, hm, bodyOk_false hshort]
    exact ⟨h2, by rw [runChain]; exact step3_lookup_mem env _ h2⟩

/-- C6 (witness): a 200 `text/html` direct response with a 5-character body is
rejected and the mobile strategy is invoked. -/
theorem C6_witness :
    envShortBody.direct =
      NetResult.success ⟨200, str "text/html", str "short"⟩ ∧
    (jsTrim (str "short")).length ≤ 100 ∧
    ((step1 envShortBody).success = false ∧
      NetCall.mobileFetch ∈ (runChain envShortBody).trace) :=
  ⟨by decide, by decide,
    (C6_min_body_threshold envShortBody).1 ⟨200, str "text/html", str "short"⟩
      (by decide) (by decide) (by decide) (by decide)⟩

/-- C7: the archival strategy is two-step with a conditional second call: when
the acquisition reaches it (both earlier strategies failed) and the snapshot
lookup settles ok but reports no available snapshot, the snapshot-fetch GET is
never issued and the strategy leaves the chain unsuccessful. -/
theorem C7_archival_two_step (env : FetchEnv) (lk : WaybackInfo)
    (h2 : (step2 env (step1 env)).success = false)
    (hlk : env.waybackLookup = NetResult.success lk)
    (hok : lk.ok = true) (hna : lk.available = false) :
    NetCall.waybackFetchCall ∉ (runChain env).trace ∧
      (runChain env).success = false := by
  have h1 : (step1 env).success = false := step2_fail_of_fail env _ h2
  have ht : (step2 env (step1 env)).trace =
      [NetCall.directFetch, NetCall.mobileFetch] := by
    rw [step2_trace env _ h1, step1_trace]; rfl
  rw [runChain, step3_no_snapshot env _ lk h2 hlk hok hna]
  constructor
  · simp [ht]
  · simpa using h2

/-- C7 (witness): a lookup reporting no snapshot while the snapshot fetch
itself would have been usable — the fetch is still never issued. -/
theorem C7_witness :
    (step2 envNoSnapshot (step1 envNoSnapshot)).success = false ∧
    envNoSnapshot.waybackLookup =
      NetResult.success ⟨true, false, str "https://web.archive.org/web/1/x"⟩ ∧
    (NetCall.waybackFetchCall ∉ (runChain envNoSnapshot).trace ∧
      (runChain envNoSnapshot).success = false) :=
  ⟨by decide, by decide,
    C7_archival_two_step envNoSnapshot ⟨true, false, str "https://web.archive.org/web/1/x"⟩
      (by decide) (by decide) (by decide) (by decide)⟩

/-- C8: when every fetch strategy fails for a parseable targetUrl, the
endpoint returns (with status 200) exactly the synthesized placeholder page,
whose HTML contains the literal target URL, an outbound anchor whose href is
the target URL, and the client-side retry affordance. -/
theorem C8_all_fail_placeholder (u : List Char) (p : UrlParts) (env : FetchEnv)
    (hp : parseUrl u = some p) (hfail : (runChain env).success = false) :
    (contentHandler (some u) env).status = 200 ∧
    (contentHandler (some u) env).body = fallbackPage u p.hostname ∧
    u <:+: (contentHandler (some u) env).body ∧
    anchorHref u <:+: (contentHandler (some u) env).body ∧
    retryAffordance <:+: (contentHandler (some u) env).body := by
  have hne : u.isEmpty = false := by
    cases u with
    | nil => rw [parseUrl_nil] at hp; cases hp
    | cons a l => rfl
  have hbody : contentHandler (some u) env =
      ⟨200, fallbackPage u p.hostname, (runChain env).trace⟩ := by
    simp only [contentHandler, hne, Bool.false_eq_true, if_false]
    rw [if_pos (Or.inl hfail), hp]
    simp [hfail]
  rw [hbody]
  refine ⟨rfl, rfl, ?_, ?_, ?_⟩
  · have e : fallbackPage u p.hostname =
        (fbSegA ++ p.hostname ++ fbSegB) ++ u ++
          (fbSegC ++ u ++ fbSegD ++ u ++ fbSegE) := by
      simp [fallbackPage, List.append_assoc]
    rw [e]; exact List.infix_append _ _ _
  · have e : fallbackPage u p.hostname =
        (fbSegA ++ p.hostname ++ fbSegB ++ u ++ fbSegCpre) ++ anchorHref u ++
          (fbSegDrest ++ u ++ fbSegE) := by
      rw [fallbackPage, fbSegC_split, fbSegD_split]
      simp [anchorHref, List.append_assoc]
    rw [e]; exact List.infix_append _ _ _
  · have e : fallbackPage u p.hostname =
        (fbSegA ++ p.hostname ++ fbSegB ++ u ++ fbSegC ++ u ++ fbSegD1) ++
          retryAffordance ++ (fbSegD2 ++ u ++ fbSegE) := by
      rw [fallbackPage, fbSegD_retry]
      simp [List.append_assoc]
    rw [e]; exact List.infix_append _ _ _

/-- C8 (witness): the placeholder properties at a concrete URL with every
call rejecting. -/
theorem C8_witness :
    parseUrl exUrl = some exParts ∧ (runChain throwEnv).success = false ∧
    ((contentHandler (some exUrl) throwEnv).status = 200 ∧
      (contentHandler (some exUrl) throwEnv).body = fallbackPage exUrl exParts.hostname ∧
      exUrl <:+: (contentHandler (some exUrl) throwEnv).body ∧
      anchorHref exUrl <:+: (contentHandler (some exUrl) throwEnv).body ∧
      retryAffordance <:+: (contentHandler (some exUrl) throwEnv).body) :=
  ⟨by decide, by decide,
    C8_all_fail_placeholder exUrl exParts throwEnv (by decide) (by decide)⟩

/-- C9: along every legal interleaving of plain-proxy requests (each request
contributes its entry increment before its `finally` decrement), every
activeConnections value written to the statistics store is nonnegative: the
entry write is the freshly incremented counter and the exit write is clamped
with `Math.max(0, ...)`. -/
theorem C9_active_connections_nonneg (tr : List ConnEvent)
    (h : connValid 0 tr = true) : ∀ w ∈ connWrites 0 tr, 0 ≤ w :=
  connWrites_nonneg tr 0 le_rfl h

/-- C9 (witness): a concrete two-request interleaving. -/
theorem C9_witness :
    connValid 0 connTrace = true ∧ ∀ w ∈ connWrites 0 connTrace, 0 ≤ w :=
  ⟨by decide, C9_active_connections_nonneg connTrace (by decide)⟩

/-- C10 (counterexample): the claim quantifies over *every* limit and offset,
but `getProxyRequests` is also callable with a negative limit (reachable from
the HTTP layer via `parseInt`), where `slice(offset, offset + limit)` uses
end-relative indexing: with two stored records, `limit = -1`, `offset = 0`,
one record is returned, which is not "at most limit" records. -/
theorem C10_counterexample :
    ¬ (((getProxyRequestsOp c10store (-1) 0).1.length : Int) ≤ -1) := by decide

/-- C10 (amended): for every store and every *nonnegative* limit and offset,
`getProxyRequests` returns at most `limit` records, sorted by timestamp
descending (newest first), forming a prefix of the sorted sequence with its
first `offset` records skipped, and leaves the store unchanged. -/
theorem C10_amended_bounded_ordered (store : List ProxyRequest)
    (limit offset : Int) (hl : 0 ≤ limit) (ho : 0 ≤ offset) :
    ((getProxyRequestsOp store limit offset).1.length : Int) ≤ limit ∧
    List.Sorted tsDesc (getProxyRequestsOp store limit offset).1 ∧
    (getProxyRequestsOp store limit offset).1 <+:
      (sortByTimestampDesc store).drop offset.toNat ∧
    (getProxyRequestsOp store limit offset).2 = store := by
  have hsorted : List.Sorted tsDesc (sortByTimestampDesc store) :=
    List.sorted_insertionSort tsDesc store
  have hres : (getProxyRequestsOp store limit offset).1 =
      ((sortByTimestampDesc store).drop
          (min offset ((sortByTimestampDesc store).length : Int)).toNat).take
        ((min (offset + limit) ((sortByTimestampDesc store).length : Int) -
            min offset ((sortByTimestampDesc store).length : Int)).toNat) := by
    simp only [getProxyRequestsOp, jsSlice]
    rw [if_neg (by omega), if_neg (by omega)]
  have hdrop : (sortByTimestampDesc store).drop
        (min offset ((sortByTimestampDesc store).length : Int)).toNat =
      (sortByTimestampDesc store).drop offset.toNat := by
    rcases le_or_lt offset ((sortByTimestampDesc store).length : Int) with h | h
    · congr 1; omega
    · rw [List.drop_eq_nil_of_le (by omega), List.drop_eq_nil_of_le (by omega)]
  refine ⟨?_, ?_, ?_, rfl⟩
  · rw [hres]
    have h1 := List.length_take_le
      ((min (offset + limit) ((sortByTimestampDesc store).length : Int) -
          min offset ((sortByTimestampDesc store).length : Int)).toNat)
      ((sortByTimestampDesc store).drop
        (min offset ((sortByTimestampDesc store).length : Int)).toNat)
    omega
  · rw [hres]
    exact List.Pairwise.sublist
      ((List.take_sublist _ _).trans (List.drop_sublist _ _)) hsorted
  · rw [hres, hdrop]
    exact List.take_prefix _ _

/-- C10 (witness): the amended statement at a concrete two-record store with
the default limit and offset. -/
theorem C10_witness :
    (0 : Int) ≤ 50 ∧ (0 : Int) ≤ 0 ∧
    (((getProxyRequestsOp c10store 50 0).1.length : Int) ≤ 50 ∧
      List.Sorted tsDesc (getProxyRequestsOp c10store 50 0).1 ∧
      (getProxyRequestsOp c10store 50 0).1 <+:
        (sortByTimestampDesc c10store).drop (0 : Int).toNat ∧
      (getProxyRequestsOp c10store 50 0).2 = c10store) :=
  ⟨by decide, by decide,
    C10_amended_bounded_ordered c10store 50 0 (by decide) (by decide)⟩
